import Mathlib

/-!
Verification of the state-synchronization core of the recording-interface
repository. The definitions below are a shallow embedding of the React hook
in src/utils/useMIDIController.js: the cached snapshot held in React state,
the three polling handlers (checkConnection, pollPlayState, pollTrackVolumes),
the two intent operations (togglePlayPause, sendFaderChange), and the
useEffect cleanup that clears the three polling intervals. Fader values are
modelled as rationals; a network outcome is an Option (none models a thrown
fetch/json error caught by the surrounding try/catch).
-/

namespace RecordingInterface

/-- Cached view held by the hook: the four React state cells declared at the
top of useMIDIController (isConnected, isPlaying, backingVolume,
trackDiscoveryComplete). -/
structure Snapshot where
  isConnected : Bool
  isPlaying : Bool
  backingVolume : ℚ
  trackDiscoveryComplete : Bool
  deriving DecidableEq, Repr

/-- Initial values of the four useState cells: false, false, 0.0, false. -/
def initialSnapshot : Snapshot :=
  ⟨false, false, 0, false⟩

/-- Body of a GET /api/status response: fields connected and is_playing read
by checkConnection. -/
structure StatusData where
  connected : Bool
  is_playing : Bool
  deriving DecidableEq, Repr

/-- Body of a GET /api/track-volumes response: fields backing and
backing_track_discovered read by pollTrackVolumes. -/
structure VolumesData where
  backing : ℚ
  backing_track_discovered : Bool
  deriving DecidableEq, Repr

/-- Body of a POST /api/play response: fields status and is_playing read by
togglePlayPause. -/
structure PlayResp where
  status : String
  is_playing : Bool
  deriving DecidableEq, Repr

/-- Body of a POST /api/fader response: the status field read by
sendFaderChange. -/
structure FaderResp where
  status : String
  deriving DecidableEq, Repr

/-- Body of the POST /api/play request built by togglePlayPause:
play = negation of the cached isPlaying at call time. -/
structure PlayRequest where
  play : Bool
  deriving DecidableEq, Repr

/-- Body of the POST /api/fader request built by sendFaderChange:
track (lower-cased track name) and value. -/
structure FaderRequest where
  track : String
  value : ℚ
  deriving DecidableEq, Repr

/-- Handler checkConnection (useMIDIController.js lines 12 to 23): on a
successful fetch it stores data.connected and data.is_playing; on a caught
error it sets isConnected to false and leaves the rest unchanged. -/
def checkConnection (s : Snapshot) (resp : Option StatusData) : Snapshot :=
  match resp with
  | some d => { s with isConnected := d.connected, isPlaying := d.is_playing }
  | none => { s with isConnected := false }

/-- Handler pollPlayState (lines 25 to 33): on success it stores
data.is_playing; a caught error only logs and changes nothing. -/
def pollPlayState (s : Snapshot) (resp : Option Bool) : Snapshot :=
  match resp with
  | some b => { s with isPlaying := b }
  | none => s

/-- Handler pollTrackVolumes (lines 35 to 44): on success it stores
data.backing and data.backing_track_discovered; a caught error only logs
and changes nothing. -/
def pollTrackVolumes (s : Snapshot) (resp : Option VolumesData) : Snapshot :=
  match resp with
  | some d =>
      { s with backingVolume := d.backing,
               trackDiscoveryComplete := d.backing_track_discovered }
  | none => s

/-- Operation togglePlayPause (lines 66 to 94), run to completion against a
fixed snapshot: if isConnected is false it returns early with no request;
otherwise it emits a play request with play = negation of the cached
isPlaying, and on a response whose status is the string ok it stores the
is_playing carried by the response. Every path of the JS function resolves
with undefined, modelled by the Unit component of the result. -/
def togglePlayPauseRun (s : Snapshot) (resp : Option PlayResp) :
    Snapshot × Option PlayRequest × Unit :=
  if s.isConnected = false then
    (s, none, ())
  else
    match resp with
    | none => (s, some ⟨!s.isPlaying⟩, ())
    | some d =>
        if d.status = "ok" then
          ({ s with isPlaying := d.is_playing }, some ⟨!s.isPlaying⟩, ())
        else
          (s, some ⟨!s.isPlaying⟩, ())

/-- Snapshot component of togglePlayPauseRun. -/
def togglePlayPause (s : Snapshot) (resp : Option PlayResp) : Snapshot :=
  (togglePlayPauseRun s resp).1

/-- ASCII lower-casing applied by the JS expression trackName.toLowerCase()
on the track names used in this codebase: each character in the range A to Z
is shifted down by 32 code points, everything else is kept. Char.toLower is
exactly this map. -/
def jsToLowerCase (s : String) : String :=
  ⟨s.data.map Char.toLower⟩

/-- Request body built by sendFaderChange (lines 100 to 109): the track field
is trackName.toLowerCase() and the value field is the numeric argument,
transmitted unchanged. -/
def sendFaderChangeRequest (trackName : String) (value : ℚ) : FaderRequest :=
  ⟨jsToLowerCase trackName, value⟩

/-- Operation sendFaderChange (lines 96 to 125), run to completion against a
fixed snapshot: it performs the fetch unconditionally (there is no
isConnected gate on this path), never mutates the snapshot, and resolves
with true exactly when the response arrives with status ok; any thrown
error is caught and resolved as false. -/
def sendFaderChange (s : Snapshot) (trackName : String) (value : ℚ)
    (resp : Option FaderResp) : Snapshot × Option FaderRequest × Bool :=
  (s, some (sendFaderChangeRequest trackName value),
    match resp with
    | some d => d.status = "ok"
    | none => false)

/-- Completion of one asynchronous operation of the hook, together with the
data its response carried (none models a network error caught by the
operation). -/
inductive Event where
  | statusResp (r : Option StatusData)
  | playStateResp (r : Option Bool)
  | volumesResp (r : Option VolumesData)
  | playResp (r : Option PlayResp)
  | faderResp (t : String) (v : ℚ) (r : Option FaderResp)
  deriving DecidableEq, Repr

/-- Effect of one completed operation on the cached snapshot: each React
setState call of the corresponding JS handler, applied in order. -/
def applyEvent (s : Snapshot) : Event → Snapshot
  | .statusResp r => checkConnection s r
  | .playStateResp r => pollPlayState s r
  | .volumesResp r => pollTrackVolumes s r
  | .playResp r => togglePlayPause s r
  | .faderResp t v r => (sendFaderChange s t v r).1

/-- Snapshot after a sequence of completed operations, applied in the order
their continuations run on the JS event loop. -/
def run (s : Snapshot) (es : List Event) : Snapshot :=
  es.foldl applyEvent s

/-- State of the hook together with its scheduling machinery: the cached
snapshot and whether the three setInterval timers installed by the useEffect
(lines 50, 53, 56) are still active. -/
structure SysState where
  snap : Snapshot
  timersActive : Bool
  deriving DecidableEq, Repr

/-- Occurrence at the level of the event loop. A tick is a poll initiated by
one of the interval timers and run to completion; an inflight event is the
arrival of a response to a request that was already issued; cleanup is the
useEffect teardown (lines 59 to 63), which calls clearInterval on the three
timers. In JS, clearInterval cancels future timer callbacks but does not
cancel promise continuations of a fetch already issued, so an inflight
delivery still runs its setState calls. -/
inductive SysEvent where
  | tick (e : Event)
  | inflight (e : Event)
  | cleanup
  deriving DecidableEq, Repr

/-- Transition of the hook plus scheduler: timer ticks fire only while the
intervals are active; deliveries of in-flight responses always run their
handler; cleanup deactivates the timers and touches nothing else. -/
def sysStep (st : SysState) : SysEvent → SysState
  | .tick e => if st.timersActive then ⟨applyEvent st.snap e, st.timersActive⟩ else st
  | .inflight e => ⟨applyEvent st.snap e, st.timersActive⟩
  | .cleanup => ⟨st.snap, false⟩

/-- Character in the ASCII range A to Z. -/
def isAsciiUpper (c : Char) : Bool :=
  65 ≤ c.toNat && c.toNat ≤ 90

theorem char_toNat_ofNat_valid (n : Nat) (h : n.isValidChar) :
    (Char.ofNat n).toNat = n := by
  rw [Char.ofNat, dif_pos h]
  rfl

theorem char_toLower_ne_of_upper (c : Char) (h : isAsciiUpper c = true) :
    Char.toLower c ≠ c := by
  have hc : 65 ≤ c.toNat ∧ c.toNat ≤ 90 := by
    simpa [isAsciiUpper] using h
  have hvalid : (c.toNat + 32).isValidChar := Or.inl (by omega)
  intro heq
  have htl : Char.toLower c = Char.ofNat (c.toNat + 32) := by
    unfold Char.toLower
    exact if_pos ⟨hc.1, hc.2⟩
  have := congrArg Char.toNat (htl ▸ heq)
  rw [char_toNat_ofNat_valid _ hvalid] at this
  omega

theorem map_toLower_ne (l : List Char) (h : ∃ c ∈ l, isAsciiUpper c = true) :
    l.map Char.toLower ≠ l := by
  induction l with
  | nil => simp at h
  | cons a t ih =>
      intro heq
      have ha : Char.toLower a = a := (List.cons.injEq _ _ _ _ ▸ heq).1
      have ht : t.map Char.toLower = t := (List.cons.injEq _ _ _ _ ▸ heq).2
      rcases h with ⟨c, hm, hu⟩
      rcases List.mem_cons.mp hm with hhead | htail
      · exact char_toLower_ne_of_upper a (hhead ▸ hu) ha
      · exact ih ⟨c, htail, hu⟩ ht

/-- Claim C1, counterexample: start connected and not playing; the bridge
confirms the setPlay intent with status ok and is_playing true, then the
stale passive poll response (reporting is_playing false from a state read
before the intent) is applied afterwards. The claim says the final cached
isPlaying equals the confirmed value true; in the code the stale poll
overwrites it and the final cached isPlaying is false. -/
theorem C1_stale_poll_overwrites_counterexample :
    (PlayResp.mk "ok" true).is_playing = true ∧
    (run ⟨true, false, 0, false⟩
      [Event.playResp (some ⟨"ok", true⟩),
       Event.playStateResp (some false)]).isPlaying = false := by
  constructor
  · rfl
  · decide

/-- Claim C1, amended: the hook has no in-flight intent tracking, so the
cached isPlaying is last-writer-wins: whatever events ran before, a passive
play-state poll response applied last sets the cached isPlaying to the value
it carries, overwriting any earlier setPlay confirmation. -/
theorem C1_last_response_wins (s : Snapshot) (es : List Event) (b : Bool) :
    (run s (es ++ [Event.playStateResp (some b)])).isPlaying = b := by
  simp [run, List.foldl_append, applyEvent, pollPlayState]

/-- Claim C2, counterexample: for the out-of-range input 2, sendFaderChange
transmits the value 2 itself, which is greater than 1, so no clamping to
the interval from 0 to 1 happens before transmission. -/
theorem C2_no_clamp_counterexample :
    (sendFaderChangeRequest "Backing" 2).value = 2 ∧ ¬ ((2 : ℚ) ≤ 1) := by
  constructor
  · rfl
  · norm_num

/-- Claim C2, amended: sendFaderChange transmits every numeric input
unchanged, with no clamping; it never rejects or throws for numeric input
(every outcome, including a thrown fetch error, resolves to a boolean
result), and the emitted request carries exactly the given value. -/
theorem C2_value_transmitted_unchanged (s : Snapshot) (t : String) (v : ℚ)
    (r : Option FaderResp) :
    (sendFaderChange s t v r).2.1 = some (sendFaderChangeRequest t v) ∧
    (sendFaderChangeRequest t v).value = v := by
  exact ⟨rfl, rfl⟩

/-- Claim C3, counterexample: with the snapshot disconnected, sendFaderChange
still emits the network request; the fader path has no connection gate. -/
theorem C3_fader_ignores_connection_counterexample :
    (Snapshot.mk false false 0 false).isConnected = false ∧
    (sendFaderChange ⟨false, false, 0, false⟩ "Backing" (1/2) none).2.1 ≠ none := by
  constructor
  · rfl
  · decide

/-- Claim C3, amended: while disconnected, togglePlayPause fails fast,
emitting no request and leaving the snapshot unchanged; sendFaderChange,
however, always performs the network request, connected or not. -/
theorem C3_disconnected_gate :
    (∀ (s : Snapshot) (r : Option PlayResp), s.isConnected = false →
      togglePlayPauseRun s r = (s, none, ())) ∧
    (∀ (s : Snapshot) (t : String) (v : ℚ) (r : Option FaderResp),
      (sendFaderChange s t v r).2.1 = some (sendFaderChangeRequest t v)) := by
  constructor
  · intro s r h
    simp [togglePlayPauseRun, h]
  · intro s t v r
    rfl

/-- Witness for C3_disconnected_gate at a concrete disconnected snapshot. -/
theorem C3_disconnected_gate_witness :
    togglePlayPauseRun ⟨false, true, 0, false⟩ (some ⟨"ok", false⟩)
      = (⟨false, true, 0, false⟩, none, ()) :=
  C3_disconnected_gate.1 ⟨false, true, 0, false⟩ (some ⟨"ok", false⟩) rfl

/-- Claim C4, counterexample: after the cleanup has run, a play-state
response that was in flight at cleanup time still mutates the cached
snapshot when it arrives (clearInterval cancels timers, not the promise
continuations of a fetch already issued). -/
theorem C4_inflight_mutation_counterexample :
    (sysStep (sysStep ⟨initialSnapshot, true⟩ SysEvent.cleanup)
      (SysEvent.inflight (Event.playStateResp (some true)))).snap
      ≠ initialSnapshot := by
  decide

/-- Claim C4, amended: after the cleanup, no timer-driven poll runs again
(a tick event leaves the system state unchanged) and the cleanup is
idempotent, but a response already in flight when the cleanup ran still
mutates the snapshot on arrival. -/
theorem C4_cleanup_stops_timers (st : SysState) (e : Event) :
    sysStep (sysStep st SysEvent.cleanup) (SysEvent.tick e)
      = sysStep st SysEvent.cleanup ∧
    sysStep (sysStep st SysEvent.cleanup) SysEvent.cleanup
      = sysStep st SysEvent.cleanup := by
  constructor
  · simp [sysStep]
  · simp [sysStep]

/-- Claim C5: when connected, a togglePlayPause call whose response has
status ok caches the is_playing value carried by that response, while the
request it submitted carried the negation of the previously cached value;
so the cache is set to the confirmed value, not to the requested one. -/
theorem C5_confirmed_value_cached (s : Snapshot) (b : Bool)
    (h : s.isConnected = true) :
    togglePlayPause s (some ⟨"ok", b⟩) = { s with isPlaying := b } ∧
    (togglePlayPauseRun s (some ⟨"ok", b⟩)).2.1 = some ⟨!s.isPlaying⟩ := by
  constructor
  · simp [togglePlayPause, togglePlayPauseRun, h]
  · simp [togglePlayPauseRun, h]

/-- Witness for C5_confirmed_value_cached: connected and not playing, the
intent requested play true, the bridge confirmed is_playing false; the
cache stores the confirmed false, not the requested true. -/
theorem C5_confirmed_value_cached_witness :
    togglePlayPause ⟨true, false, 0, false⟩ (some ⟨"ok", false⟩)
        = ⟨true, false, 0, false⟩ ∧
    (togglePlayPauseRun ⟨true, false, 0, false⟩ (some ⟨"ok", false⟩)).2.1
        = some ⟨true⟩ :=
  C5_confirmed_value_cached ⟨true, false, 0, false⟩ false rfl

/-- Claim C6, counterexample: the JS togglePlayPause resolves with undefined
on every path, so the result of a call whose response was rejected by the
bridge is indistinguishable from the result of a successful call — the
failure condition is not reported to the caller as the result of the call,
it is only logged. -/
theorem C6_no_failure_result_counterexample :
    (togglePlayPauseRun ⟨true, false, 0, false⟩ (some ⟨"error", true⟩)).2.2
      = (togglePlayPauseRun ⟨true, false, 0, false⟩ (some ⟨"ok", true⟩)).2.2 := by
  rfl

/-- Claim C6, amended: on every failing togglePlayPause call — the request
does not complete, or the response status is not ok — the cached snapshot
is left unchanged; the failure is only logged, and the call resolves with
the same undefined result as a successful call, so no failure result
reaches the caller. -/
theorem C6_failure_leaves_cache :
    (∀ s : Snapshot, togglePlayPause s none = s) ∧
    (∀ (s : Snapshot) (d : PlayResp), d.status ≠ "ok" →
      togglePlayPause s (some d) = s) ∧
    (∀ (s₁ s₂ : Snapshot) (r₁ r₂ : Option PlayResp),
      (togglePlayPauseRun s₁ r₁).2.2 = (togglePlayPauseRun s₂ r₂).2.2) := by
  refine ⟨?_, ?_, ?_⟩
  · intro s
    by_cases h : s.isConnected = false <;>
      simp [togglePlayPause, togglePlayPauseRun, h]
  · intro s d hd
    by_cases h : s.isConnected = false <;>
      simp [togglePlayPause, togglePlayPauseRun, h, hd]
  · intro s₁ s₂ r₁ r₂
    rfl

/-- Witness for C6_failure_leaves_cache at a concrete rejected response. -/
theorem C6_failure_leaves_cache_witness :
    togglePlayPause ⟨true, true, 1/2, true⟩ (some ⟨"error", false⟩)
      = ⟨true, true, 1/2, true⟩ :=
  C6_failure_leaves_cache.2.1 ⟨true, true, 1/2, true⟩ ⟨"error", false⟩ (by decide)

/-- Claim C7: for a value v between 0 and 1, a successful
sendFaderChange for the Backing channel transmits exactly v, and a
subsequent successful track-volumes poll whose response reports v as the
backing volume leaves the cached backing volume equal to v (round-trip). -/
theorem C7_fader_roundtrip (s s' : Snapshot) (v : ℚ) (r : Option FaderResp)
    (d : VolumesData) (h0 : 0 ≤ v) (h1 : v ≤ 1)
    (hok : (sendFaderChange s "Backing" v r).2.2 = true)
    (hd : d.backing = v) :
    (sendFaderChangeRequest "Backing" v).value = v ∧
    (pollTrackVolumes s' (some d)).backingVolume = v := by
  exact ⟨rfl, hd⟩

/-- Witness for C7_fader_roundtrip at v equal to one half. -/
theorem C7_fader_roundtrip_witness :
    (sendFaderChangeRequest "Backing" (1/2)).value = 1/2 ∧
    (pollTrackVolumes ⟨true, false, 0, false⟩ (some ⟨1/2, true⟩)).backingVolume
      = 1/2 :=
  C7_fader_roundtrip ⟨true, false, 0, false⟩ ⟨true, false, 0, false⟩ (1/2)
    (some ⟨"ok"⟩) ⟨1/2, true⟩ (by norm_num) (by norm_num) (by decide) rfl

/-- Claim C8: three consecutive failed connection probes leave the cached
connection state disconnected (in this code a single failure already does);
the next successful probe reporting connected true restores it; and no
handler other than the connection probe ever changes isConnected. -/
theorem C8_connection_probe :
    (∀ s : Snapshot,
      (run s [Event.statusResp none, Event.statusResp none,
              Event.statusResp none]).isConnected = false) ∧
    (∀ (s : Snapshot) (d : StatusData), d.connected = true →
      (checkConnection s (some d)).isConnected = true) ∧
    (∀ (s : Snapshot) (r : Option Bool),
      (pollPlayState s r).isConnected = s.isConnected) ∧
    (∀ (s : Snapshot) (r : Option VolumesData),
      (pollTrackVolumes s r).isConnected = s.isConnected) ∧
    (∀ (s : Snapshot) (r : Option PlayResp),
      (togglePlayPause s r).isConnected = s.isConnected) ∧
    (∀ (s : Snapshot) (t : String) (v : ℚ) (r : Option FaderResp),
      ((sendFaderChange s t v r).1).isConnected = s.isConnected) := by
  refine ⟨?_, ?_, ?_, ?_, ?_, ?_⟩
  · intro s
    simp [run, applyEvent, checkConnection]
  · intro s d h
    simp [checkConnection, h]
  · intro s r
    cases r <;> rfl
  · intro s r
    cases r <;> rfl
  · intro s r
    by_cases h : s.isConnected = false <;>
      cases r with
      | none => simp [togglePlayPause, togglePlayPauseRun, h]
      | some d =>
          by_cases hd : d.status = "ok" <;>
            simp [togglePlayPause, togglePlayPauseRun, h, hd]
  · intro s t v r
    rfl

/-- Witness for C8_connection_probe at concrete probe responses. -/
theorem C8_connection_probe_witness :
    (run ⟨true, true, 0, false⟩
      [Event.statusResp none, Event.statusResp none,
       Event.statusResp none]).isConnected = false ∧
    (checkConnection ⟨false, false, 0, false⟩
      (some ⟨true, true⟩)).isConnected = true :=
  ⟨C8_connection_probe.1 ⟨true, true, 0, false⟩,
   C8_connection_probe.2.1 ⟨false, false, 0, false⟩ ⟨true, true⟩ rfl⟩

/-- Claim C9: a single failed fine-grained state poll — a play-state or
track-volumes request whose fetch threw — changes nothing at all: the whole
cached snapshot, including the connection state, is left exactly as it was,
and nothing marks the hook disconnected. -/
theorem C9_poll_failure_tolerated (s : Snapshot) :
    pollPlayState s none = s ∧ pollTrackVolumes s none = s := by
  exact ⟨rfl, rfl⟩

/-- Claim C10: the track field transmitted by sendFaderChange is the
lower-cased track name; whenever the displayed name contains an upper-case
ASCII letter the wire identifier differs from it; in particular the
displayed name Backing is transmitted as backing. -/
theorem C10_lowercase_track :
    (∀ (t : String) (v : ℚ),
      (sendFaderChangeRequest t v).track = jsToLowerCase t) ∧
    (∀ (t : String) (v : ℚ), (∃ c ∈ t.data, isAsciiUpper c = true) →
      (sendFaderChangeRequest t v).track ≠ t) ∧
    (sendFaderChangeRequest "Backing" 0).track = "backing" := by
  refine ⟨fun t v => rfl, ?_, by decide⟩
  intro t v h heq
  have hdata : t.data.map Char.toLower = t.data := by
    have : (sendFaderChangeRequest t v).track.data = t.data :=
      congrArg String.data heq
    simpa [sendFaderChangeRequest, jsToLowerCase] using this
  exact map_toLower_ne t.data h hdata

/-- Witness for C10_lowercase_track: the name Backing contains the
upper-case letter B, so the transmitted identifier differs from it. -/
theorem C10_lowercase_track_witness :
    (sendFaderChangeRequest "Backing" (1/4)).track ≠ "Backing" :=
  C10_lowercase_track.2.1 "Backing" (1/4) ⟨'B', by decide, by decide⟩

end RecordingInterface
